import Mathlib

/-!
Shallow embedding of the intent-extraction and wireframe-synthesis core of
the AI Agent service (src/AIAgentService/src/api/main.py), together with
machine-checked proofs of its specified properties.

Strings are modelled at the level of their character lists; the Python
regex word-boundary construct is modelled over ASCII word characters
(alphanumerics and underscore), and the heuristic confidence scores (1.0,
0.8, 0.1) are modelled as exact rationals (at these values Python's
two-decimal rounding of the corresponding floats is the identity).
-/

namespace AIAgent

/-- Word characters for the regex word-boundary check of the scorer
(alphanumerics and underscore). -/
def isWordChar (c : Char) : Bool := c.isAlphanum || c == '_'

/-- Lower-cased character list of a string (mirrors `prompt.lower()`). -/
def lcString (s : String) : List Char := s.data.map Char.toLower

/-- Occurrence test: `pat` occurs in `s` starting at position `i`. -/
def occursAt (s pat : List Char) (i : Nat) : Bool := pat.isPrefixOf (s.drop i)

/-- Substring test: `pat` occurs somewhere in `s` (mirrors the
Python containment test `pat in s`). -/
def substrOccurs (pat s : List Char) : Bool :=
  (List.range (s.length + 1)).any (occursAt s pat)

/-- Word-bounded occurrence at a position: `pat` occurs in `s` at `i` and
the previous character (if any) and the following character (if any) are not
word characters. -/
def boundedAt (s pat : List Char) (i : Nat) : Bool :=
  occursAt s pat i &&
  (decide (i = 0) || !isWordChar (s.getD (i - 1) ' ')) &&
  !isWordChar (s.getD (i + pat.length) ' ')

/-- Some occurrence of `pat` in `s` is word-bounded (mirrors
`re.search(rf"\b{re.escape(syn)}\b", s)` for a literal synonym `pat`). -/
def boundedOccurs (pat s : List Char) : Bool :=
  (List.range (s.length + 1)).any (boundedAt s pat)

/-- The fixed keyword table `_KEYWORDS`, in declaration order. -/
def KEYWORDS : List (String × List String) :=
  [ ("login", ["login", "sign in", "signin"]),
    ("dashboard", ["dashboard", "overview", "home screen"]),
    ("list", ["list", "listing", "items"]),
    ("table", ["table", "grid"]),
    ("form", ["form", "input fields", "fields"]),
    ("button", ["button", "cta", "submit", "save"]),
    ("navbar", ["navbar", "navigation", "top bar", "menu"]) ]

/-- Scorer `_score_match`: scan the synonyms in order; the first synonym present in
the lower-cased prompt decides the score, 1.0 when its occurrence is
word-bounded and 0.8 otherwise; 0.0 when no synonym is present. -/
def scoreMatch (promptLc : List Char) : List String → ℚ
  | [] => 0
  | syn :: rest =>
    let synLc := syn.data.map Char.toLower
    if boundedOccurs synLc promptLc then 1
    else if substrOccurs synLc promptLc then mkRat 4 5
    else scoreMatch promptLc rest

/-- Round half to even (the rounding mode of Python's `round`), phrased over
the numerator and denominator so that it evaluates by kernel reduction:
`2 * (q - floor q)` compares with `1` exactly as
`2 * q.num - 2 * floor q * q.den` compares with `q.den`. -/
def roundHalfToEven (q : ℚ) : ℤ :=
  let f : ℤ := ⌊q⌋
  let t : ℤ := 2 * q.num - 2 * f * q.den
  if t < (q.den : ℤ) then f
  else if (q.den : ℤ) < t then f + 1
  else if f % 2 = 0 then f else f + 1

/-- Python `round(score, 2)`: round to two decimal places (multiplication by 100
and the final division by 100 are phrased via `mkRat` on the numerator and
denominator, which are exact rational operations). -/
def round2 (q : ℚ) : ℚ := mkRat (roundHalfToEven (mkRat (q.num * 100) q.den)) 100

/-- An extracted intent: a type tag, an always-null value and an optional
confidence score. -/
structure Intent where
  type : String
  value : Option String
  confidence : Option ℚ
deriving DecidableEq, Repr

/-- The accumulation loop of `_extract_intents_from_prompt`: one intent per
keyword-table entry whose score is positive, in table order. -/
def extractLoop (promptLc : List Char) : List (String × List String) → List Intent
  | [] => []
  | (t, syns) :: rest =>
    let score := scoreMatch promptLc syns
    (if 0 < score then [⟨t, none, some (round2 score)⟩] else []) ++
      extractLoop promptLc rest

/-- Extractor `_extract_intents_from_prompt`: score every keyword-table entry against
the lower-cased prompt; if nothing matched, fall back to a single
`unknown` intent with confidence 0.1. -/
def extractIntentsFromPrompt (prompt : String) : List Intent :=
  let promptLc := lcString prompt
  let intents := extractLoop promptLc KEYWORDS
  if intents.isEmpty then [⟨"unknown", none, some (mkRat 1 10)⟩] else intents

/-- JSON-like property values appearing in component props. -/
inductive PValue where
  | str : String → PValue
  | arr : List PValue → PValue
  | obj : List (String × PValue) → PValue

/-- A flat UI component: id, type tag and props mapping. -/
structure Component where
  id : String
  type : String
  props : List (String × PValue)

/-- A node of the layout tree: containers, rows and columns carry an id and
child nodes; a bare component-id string child is a leaf. -/
inductive LayoutNode where
  | container : String → String → List LayoutNode → LayoutNode
  | row : String → List LayoutNode → LayoutNode
  | column : String → Nat → List LayoutNode → LayoutNode
  | leaf : String → LayoutNode

/-- An input intent of the wireframe endpoint: only `type` is ever
consulted; `value` is carried but ignored. -/
structure WireframeIntent where
  type : String
  value : Option PValue

/-- A wireframe specification: root id, layout tree, flat component list and
metadata. -/
structure WireframeSpec where
  id : String
  layout : LayoutNode
  components : List Component
  metadata : List (String × String)

/-- Test that `s` starts with `pre` (mirrors Python's `s.startswith(pre)`). -/
def startsWithStr (s pre : String) : Bool := pre.data.isPrefixOf s.data

/-- A row holding a single full-width (span 12) column whose children are
the given leaf component-id strings — the shape every rule block appends. -/
def mkLeafRow (rowId colId : String) (leaves : List String) : LayoutNode :=
  .row rowId [.column colId 12 (leaves.map LayoutNode.leaf)]

/-- The Navbar component added by rule block 1. -/
def navbarComponent : Component :=
  { id := "navbar-1", type := "Navbar",
    props := [ ("title", .str "App"),
               ("links", .arr [.str "Home", .str "About", .str "Contact"]) ] }

/-- The login Form component added by rule block 2. -/
def loginFormComponent : Component :=
  { id := "form-1", type := "Form",
    props := [ ("fields", .arr
      [ .obj [("id", .str "email"), ("label", .str "Email"), ("type", .str "email")],
        .obj [("id", .str "password"), ("label", .str "Password"), ("type", .str "password")] ]) ] }

/-- The Sign In Button component added by rule block 2. -/
def signInButtonComponent : Component :=
  { id := "button-1", type := "Button",
    props := [("text", .str "Sign In"), ("variant", .str "primary")] }

/-- The Table component added by rule block 3 (id `table-1`). -/
def tableComponent (i : String) : Component :=
  { id := i, type := "Table",
    props := [ ("columns", .arr [.str "Name", .str "Status", .str "Updated"]),
               ("rows", .arr []) ] }

/-- The List component added by rule block 3 (id `list-1`). -/
def listComponent (i : String) : Component :=
  { id := i, type := "List",
    props := [ ("items", .arr []),
               ("itemProps", .obj [("primaryKey", .str "title")]) ] }

/-- The generic Form component added by rule block 4 (id `form-2`). -/
def genericFormComponent : Component :=
  { id := "form-2", type := "Form",
    props := [ ("fields", .arr
      [ .obj [("id", .str "name"), ("label", .str "Name"), ("type", .str "text")],
        .obj [("id", .str "description"), ("label", .str "Description"), ("type", .str "textarea")] ]) ] }

/-- The standalone Submit Button component added by rule block 5 (id `button-2`). -/
def submitButtonComponent : Component :=
  { id := "button-2", type := "Button",
    props := [("text", .str "Submit"), ("variant", .str "secondary")] }

/-- Synthesizer `_spec_from_intents`: build a wireframe spec from the recognized intent
types. Fresh opaque identifiers (`uuid.uuid4().hex[:8]` in the source) are
modelled by an injected generator `gen`, consulted once per id drawn, in
draw order: index 0 for the root `wf-` id, then two per appended row (row id
then column id). -/
def specFromIntents (gen : Nat → String) (intents : List WireframeIntent) : WireframeSpec :=
  let recognized := intents.map WireframeIntent.type
  let wid := "wf-" ++ gen 0
  -- Navbar row
  let rows1 : List LayoutNode :=
    if "navbar" ∈ recognized ∨ "dashboard" ∈ recognized then
      [mkLeafRow ("row-" ++ gen 1) ("col-" ++ gen 2) ["navbar-1"]] else []
  let comps1 : List Component :=
    if "navbar" ∈ recognized ∨ "dashboard" ∈ recognized then [navbarComponent] else []
  let k1 : Nat := if "navbar" ∈ recognized ∨ "dashboard" ∈ recognized then 3 else 1
  -- Login form row
  let rows2 : List LayoutNode :=
    if "login" ∈ recognized then
      [mkLeafRow ("row-" ++ gen k1) ("col-" ++ gen (k1 + 1)) ["form-1", "button-1"]] else []
  let comps2 : List Component :=
    if "login" ∈ recognized then [loginFormComponent, signInButtonComponent] else []
  let k2 : Nat := if "login" ∈ recognized then k1 + 2 else k1
  -- List/table section
  let tlId : String :=
    if "table" ∈ recognized ∨ "dashboard" ∈ recognized then "table-1" else "list-1"
  let rows3 : List LayoutNode :=
    if "table" ∈ recognized ∨ "list" ∈ recognized ∨ "dashboard" ∈ recognized then
      [mkLeafRow ("row-" ++ gen k2) ("col-" ++ gen (k2 + 1)) [tlId]] else []
  let comps3 : List Component :=
    if "table" ∈ recognized ∨ "list" ∈ recognized ∨ "dashboard" ∈ recognized then
      [if startsWithStr tlId "table" then tableComponent tlId else listComponent tlId]
    else []
  let k3 : Nat :=
    if "table" ∈ recognized ∨ "list" ∈ recognized ∨ "dashboard" ∈ recognized then k2 + 2 else k2
  -- Generic form if requested
  let rows4 : List LayoutNode :=
    if "form" ∈ recognized ∧ "login" ∉ recognized then
      [mkLeafRow ("row-" ++ gen k3) ("col-" ++ gen (k3 + 1)) ["form-2"]] else []
  let comps4 : List Component :=
    if "form" ∈ recognized ∧ "login" ∉ recognized then [genericFormComponent] else []
  let k4 : Nat := if "form" ∈ recognized ∧ "login" ∉ recognized then k3 + 2 else k3
  -- Standalone button
  let rows5 : List LayoutNode :=
    if "button" ∈ recognized ∧ "login" ∉ recognized then
      [mkLeafRow ("row-" ++ gen k4) ("col-" ++ gen (k4 + 1)) ["button-2"]] else []
  let comps5 : List Component :=
    if "button" ∈ recognized ∧ "login" ∉ recognized then [submitButtonComponent] else []
  let k5 : Nat := if "button" ∈ recognized ∧ "login" ∉ recognized then k4 + 2 else k4
  let rows := rows1 ++ rows2 ++ rows3 ++ rows4 ++ rows5
  -- If nothing recognized, create an empty canvas
  let rows :=
    if rows.isEmpty then [mkLeafRow ("row-" ++ gen k5) ("col-" ++ gen (k5 + 1)) []] else rows
  { id := wid,
    layout := .container wid "column" rows,
    components := comps1 ++ comps2 ++ comps3 ++ comps4 ++ comps5,
    metadata := [("generator", "rule-based"), ("version", "1.0.0")] }

mutual

/-- The leaf component-id strings referenced by a layout node, in traversal
order. -/
def leafIds : LayoutNode → List String
  | .container _ _ cs => leafIdsList cs
  | .row _ cs => leafIdsList cs
  | .column _ _ cs => leafIdsList cs
  | .leaf s => [s]

/-- The leaf component-id strings referenced by a list of layout nodes. -/
def leafIdsList : List LayoutNode → List String
  | [] => []
  | c :: cs => leafIds c ++ leafIdsList cs

end

mutual

/-- Erase the opaque container/row/column identifiers of a layout tree,
keeping its entire remaining structure (directions, spans, child order and
leaf component ids). -/
def eraseIds : LayoutNode → LayoutNode
  | .container _ d cs => .container "" d (eraseIdsList cs)
  | .row _ cs => .row "" (eraseIdsList cs)
  | .column _ sp cs => .column "" sp (eraseIdsList cs)
  | .leaf s => .leaf s

/-- Erase opaque identifiers throughout a list of layout nodes. -/
def eraseIdsList : List LayoutNode → List LayoutNode
  | [] => []
  | c :: cs => eraseIds c :: eraseIdsList cs

end

/-- The seven intent types that the rule blocks of the synthesizer consult. -/
def ruleVocab : List String :=
  ["navbar", "dashboard", "login", "table", "list", "form", "button"]

/-! ## Properties of the scorer -/

/-- Declarative description of the scorer: the first synonym (in declared
order) present anywhere in the lower-cased prompt decides the score — 1.0
when some occurrence of it is word-bounded, 0.8 otherwise — and the score
is 0.0 when no synonym is present at all. -/
def scoreSpec (promptLc : List Char) (syns : List String) : ℚ :=
  match syns.find? (fun syn => substrOccurs (syn.data.map Char.toLower) promptLc) with
  | none => 0
  | some syn =>
      if boundedOccurs (syn.data.map Char.toLower) promptLc then 1 else mkRat 4 5

lemma substrOccurs_of_boundedOccurs {pat s : List Char}
    (h : boundedOccurs pat s = true) : substrOccurs pat s = true := by
  simp only [boundedOccurs, substrOccurs, List.any_eq_true, boundedAt,
    Bool.and_eq_true] at h ⊢
  obtain ⟨i, hi, ⟨hocc, _⟩, _⟩ := h
  exact ⟨i, hi, hocc⟩

lemma scoreMatch_eq_scoreSpec (promptLc : List Char) (syns : List String) :
    scoreMatch promptLc syns = scoreSpec promptLc syns := by
  induction syns with
  | nil => rfl
  | cons syn rest ih =>
    by_cases hs : substrOccurs (syn.data.map Char.toLower) promptLc = true
    · by_cases hb : boundedOccurs (syn.data.map Char.toLower) promptLc = true
      · simp [scoreMatch, scoreSpec, List.find?, hs, hb]
      · simp [scoreMatch, scoreSpec, List.find?, hs, hb]
    · have hb : ¬ boundedOccurs (syn.data.map Char.toLower) promptLc = true := by
        intro hb; exact hs (substrOccurs_of_boundedOccurs hb)
      simp only [scoreMatch, scoreSpec, List.find?] at ih ⊢
      rw [if_neg hb, if_neg hs]
      simpa [hs] using ih

lemma scoreMatch_cases (promptLc : List Char) (syns : List String) :
    scoreMatch promptLc syns = 0 ∨ scoreMatch promptLc syns = mkRat 4 5 ∨
      scoreMatch promptLc syns = 1 := by
  induction syns with
  | nil => left; rfl
  | cons syn rest ih =>
    simp only [scoreMatch]
    split_ifs with hb hs
    · right; right; rfl
    · right; left; rfl
    · exact ih

lemma scoreMatch_pos_of_substr {promptLc : List Char} {syns : List String}
    (h : ∃ syn ∈ syns, substrOccurs (syn.data.map Char.toLower) promptLc = true) :
    0 < scoreMatch promptLc syns := by
  induction syns with
  | nil => simp at h
  | cons syn rest ih =>
    simp only [scoreMatch]
    split_ifs with hb hs
    · decide
    · decide
    · obtain ⟨w, hw, hsub⟩ := h
      rcases List.mem_cons.mp hw with rfl | hw
      · exact absurd hsub hs
      · exact ih ⟨w, hw, hsub⟩

/-! ## Properties of the extractor loop -/

lemma mem_extractLoop {promptLc : List Char} {kw : List (String × List String)}
    {t : String} {syns : List String}
    (hk : (t, syns) ∈ kw) (hpos : 0 < scoreMatch promptLc syns) :
    (⟨t, none, some (round2 (scoreMatch promptLc syns))⟩ : Intent) ∈
      extractLoop promptLc kw := by
  induction kw with
  | nil => simp at hk
  | cons e rest ih =>
    obtain ⟨a, b⟩ := e
    rcases List.mem_cons.mp hk with he | he
    · obtain ⟨rfl, rfl⟩ := Prod.mk.injEq .. ▸ he
      simp only [extractLoop, if_pos hpos]
      exact List.mem_append_left _ (List.mem_singleton.mpr rfl)
    · exact List.mem_append_right _ (ih he)

lemma extractLoop_eq_nil {promptLc : List Char} {kw : List (String × List String)}
    (h : ∀ e ∈ kw, ¬ 0 < scoreMatch promptLc e.2) :
    extractLoop promptLc kw = [] := by
  induction kw with
  | nil => rfl
  | cons e rest ih =>
    simp only [extractLoop, if_neg (h e (List.mem_cons_self e rest))]
    exact ih fun e' he' => h e' (List.mem_cons_of_mem e he')

lemma extractLoop_mem_spec {promptLc : List Char} {kw : List (String × List String)} :
    ∀ i ∈ extractLoop promptLc kw, ∃ t syns, (t, syns) ∈ kw ∧
      0 < scoreMatch promptLc syns ∧
      i = ⟨t, none, some (round2 (scoreMatch promptLc syns))⟩ := by
  induction kw with
  | nil => simp [extractLoop]
  | cons e rest ih =>
    obtain ⟨a, b⟩ := e
    intro i hi
    simp only [extractLoop] at hi
    rcases List.mem_append.mp hi with hi | hi
    · by_cases hpos : 0 < scoreMatch promptLc b
      · rw [if_pos hpos] at hi
        exact ⟨a, b, List.mem_cons_self _ _, hpos, List.mem_singleton.mp hi⟩
      · rw [if_neg hpos] at hi; simp at hi
    · obtain ⟨t, syns, hmem, hpos, hval⟩ := ih i hi
      exact ⟨t, syns, List.mem_cons_of_mem _ hmem, hpos, hval⟩

lemma extractLoop_map_type (promptLc : List Char) (kw : List (String × List String)) :
    (extractLoop promptLc kw).map Intent.type =
      (kw.filter (fun e => decide (0 < scoreMatch promptLc e.2))).map Prod.fst := by
  induction kw with
  | nil => rfl
  | cons e rest ih =>
    obtain ⟨a, b⟩ := e
    by_cases hpos : 0 < scoreMatch promptLc b
    · simp [extractLoop, List.filter_cons, hpos, ih]
    · simp [extractLoop, List.filter_cons, hpos, ih]

/-! ## Claims about the extractor -/

/-- C1 (counterexample): the claim "a word-bounded occurrence of some synonym
of an intent type forces an intent of that type with confidence exactly 1.0"
fails on the prompt `"mylogin sign in"`: the synonym `"sign in"` of type
`login` occurs word-bounded, yet the extractor returns the lone `login`
intent with confidence 0.8, because the earlier synonym `"login"` already
matched as a bare substring (inside `"mylogin"`). -/
theorem c1_counterexample :
    ("login", ["login", "sign in", "signin"]) ∈ KEYWORDS ∧
    boundedOccurs ("sign in".data.map Char.toLower) (lcString "mylogin sign in") = true ∧
    extractIntentsFromPrompt "mylogin sign in" = [⟨"login", none, some (mkRat 4 5)⟩] ∧
    (mkRat 4 5 : ℚ) ≠ 1 := by
  decide

/-- C1 (amended): for every prompt containing some synonym of an intent type
as a word-bounded occurrence, the extractor's output includes an intent of
that matching type; its confidence is 1.0 or 0.8 (0.8 exactly when an
earlier synonym of the same type already matched as a bare substring). -/
theorem c1_word_bounded_gives_intent (prompt t : String) (syns : List String)
    (hk : (t, syns) ∈ KEYWORDS)
    (hb : ∃ syn ∈ syns, boundedOccurs (syn.data.map Char.toLower) (lcString prompt) = true) :
    (⟨t, none, some (round2 (scoreMatch (lcString prompt) syns))⟩ : Intent) ∈
        extractIntentsFromPrompt prompt ∧
    (round2 (scoreMatch (lcString prompt) syns) = 1 ∨
      round2 (scoreMatch (lcString prompt) syns) = mkRat 4 5) := by
  obtain ⟨syn, hmem, hbd⟩ := hb
  have hpos : 0 < scoreMatch (lcString prompt) syns :=
    scoreMatch_pos_of_substr ⟨syn, hmem, substrOccurs_of_boundedOccurs hbd⟩
  have hml := @mem_extractLoop (lcString prompt) KEYWORDS t syns hk hpos
  have hne : ¬ (extractLoop (lcString prompt) KEYWORDS).isEmpty = true := by
    intro hemp
    rw [List.isEmpty_iff] at hemp
    rw [hemp] at hml
    simp at hml
  constructor
  · simp only [extractIntentsFromPrompt]
    rw [if_neg hne]
    exact hml
  · rcases scoreMatch_cases (lcString prompt) syns with h0 | h45 | h1
    · rw [h0] at hpos; exact absurd hpos (by decide)
    · right; rw [h45]; decide
    · left; rw [h1]; decide

/-- C1 (witness): instance of the amended claim at the prompt
`"login page"` and the intent type `login`. -/
theorem c1_word_bounded_gives_intent_witness :
    (⟨"login", none,
        some (round2 (scoreMatch (lcString "login page") ["login", "sign in", "signin"]))⟩ :
      Intent) ∈ extractIntentsFromPrompt "login page" ∧
    (round2 (scoreMatch (lcString "login page") ["login", "sign in", "signin"]) = 1 ∨
      round2 (scoreMatch (lcString "login page") ["login", "sign in", "signin"]) = mkRat 4 5) :=
  c1_word_bounded_gives_intent "login page" "login" ["login", "sign in", "signin"]
    (by decide) ⟨"login", by decide, by decide⟩

/-- C6: for every prompt and every intent type of the keyword table, the
score is decided by the first synonym (in declared order) occurring in the
lower-cased prompt — 1.0 when that synonym has a word-bounded occurrence,
0.8 when it occurs only as a bare substring — and is 0.0 when no synonym
occurs at all (`scoreSpec` is exactly this first-occurrence description). -/
theorem c6_first_occurring_synonym_decides (prompt t : String) (syns : List String)
    (hk : (t, syns) ∈ KEYWORDS) :
    scoreMatch (lcString prompt) syns = scoreSpec (lcString prompt) syns :=
  scoreMatch_eq_scoreSpec (lcString prompt) syns

/-- C6 (witness): instance at the prompt `"preloginx"`, whose `login`
keyword occurs only as a substring without word boundaries, and scores 0.8
rather than 1.0. -/
theorem c6_first_occurring_synonym_decides_witness :
    scoreMatch (lcString "preloginx") ["login", "sign in", "signin"] =
        scoreSpec (lcString "preloginx") ["login", "sign in", "signin"] ∧
    scoreMatch (lcString "preloginx") ["login", "sign in", "signin"] = mkRat 4 5 :=
  ⟨c6_first_occurring_synonym_decides "preloginx" "login" ["login", "sign in", "signin"]
      (by decide),
    by decide⟩

/-- C7: whenever no intent type scores above 0 against a prompt, the
extractor returns exactly the single intent
`(type, value, confidence) = ("unknown", null, 0.1)`; and for every prompt
whatsoever the output list is nonempty. -/
theorem c7_unknown_fallback (prompt : String) :
    ((∀ e ∈ KEYWORDS, ¬ 0 < scoreMatch (lcString prompt) e.2) →
      extractIntentsFromPrompt prompt = [⟨"unknown", none, some (mkRat 1 10)⟩]) ∧
    extractIntentsFromPrompt prompt ≠ [] := by
  constructor
  · intro h
    have hnil : extractLoop (lcString prompt) KEYWORDS = [] := extractLoop_eq_nil h
    simp [extractIntentsFromPrompt, hnil]
  · by_cases he : (extractLoop (lcString prompt) KEYWORDS).isEmpty = true
    · simp [extractIntentsFromPrompt, he]
    · simp only [extractIntentsFromPrompt]
      rw [if_neg he]
      intro hnil
      rw [hnil] at he
      exact he rfl

/-- C7 (witness): instance at the keyword-free prompt `"zzz"`. -/
theorem c7_unknown_fallback_witness :
    extractIntentsFromPrompt "zzz" = [⟨"unknown", none, some (mkRat 1 10)⟩] :=
  (c7_unknown_fallback "zzz").1 (by decide)

/-- C8: for every prompt, the extractor lists at most one intent per intent
type (the output's types are duplicate-free), in keyword-table declaration
order (the type list is a sublist of the vocabulary order, with `unknown`
only as fallback), and every output intent has a null value and confidence
equal to its type's score rounded to two decimal places (the fallback
`unknown` intent carrying 0.1). -/
theorem c8_output_shape (prompt : String) :
    ((extractIntentsFromPrompt prompt).map Intent.type).Nodup ∧
    ((extractIntentsFromPrompt prompt).map Intent.type).Sublist
        (KEYWORDS.map Prod.fst ++ ["unknown"]) ∧
    ∀ i ∈ extractIntentsFromPrompt prompt, i.value = none ∧
      ((i.type = "unknown" ∧ i.confidence = some (mkRat 1 10)) ∨
        ∃ syns, (i.type, syns) ∈ KEYWORDS ∧
          i.confidence = some (round2 (scoreMatch (lcString prompt) syns))) := by
  by_cases he : (extractLoop (lcString prompt) KEYWORDS).isEmpty = true
  · have hu : extractIntentsFromPrompt prompt = [⟨"unknown", none, some (mkRat 1 10)⟩] := by
      simp only [extractIntentsFromPrompt]
      rw [if_pos he]
    rw [hu]
    refine ⟨by simp, ?_, ?_⟩
    · exact List.sublist_append_right _ _
    · intro i hi
      rw [List.mem_singleton] at hi
      subst hi
      exact ⟨rfl, Or.inl ⟨rfl, rfl⟩⟩
  · have hl : extractIntentsFromPrompt prompt = extractLoop (lcString prompt) KEYWORDS := by
      simp only [extractIntentsFromPrompt]
      rw [if_neg he]
    rw [hl]
    have hsub : ((extractLoop (lcString prompt) KEYWORDS).map Intent.type).Sublist
        (KEYWORDS.map Prod.fst) := by
      rw [extractLoop_map_type]
      exact List.Sublist.map _ (List.filter_sublist _)
    refine ⟨?_, ?_, ?_⟩
    · exact List.Nodup.sublist hsub (by decide)
    · exact hsub.trans (List.sublist_append_left _ _)
    · intro i hi
      obtain ⟨t, syns, hmem, hpos, rfl⟩ := extractLoop_mem_spec i hi
      exact ⟨rfl, Or.inr ⟨syns, hmem, rfl⟩⟩

/-- C8 (witness): instance at the prompt `"login"`: duplicate-free type
list, and the intent returned has a null value. -/
theorem c8_output_shape_witness :
    ((extractIntentsFromPrompt "login").map Intent.type).Nodup ∧
    (⟨"login", none, some 1⟩ : Intent).value = none :=
  ⟨(c8_output_shape "login").1,
    ((c8_output_shape "login").2.2 ⟨"login", none, some 1⟩ (by decide)).1⟩

/-! ## Claims about the synthesizer -/

lemma startsWith_table_id : startsWithStr "table-1" "table" = true := by decide

lemma startsWith_list_id : startsWithStr "list-1" "table" = false := by decide

/-- C2: for every injected id generator and every input intent list, the
leaf component-id strings referenced by the layout tree are exactly the ids
of the flat component list, in order and without duplicates — so every leaf
reference has exactly one matching component and conversely. -/
theorem c2_leaf_component_correspondence (gen : Nat → String)
    (intents : List WireframeIntent) :
    leafIds (specFromIntents gen intents).layout
        = (specFromIntents gen intents).components.map Component.id ∧
    (leafIds (specFromIntents gen intents).layout).Nodup := by
  by_cases h1 : ((∃ a ∈ intents, WireframeIntent.type a = "navbar") ∨
      ∃ a ∈ intents, WireframeIntent.type a = "dashboard") <;>
  by_cases h2 : (∃ a ∈ intents, WireframeIntent.type a = "login") <;>
  by_cases h3 : ((∃ a ∈ intents, WireframeIntent.type a = "table") ∨
      (∃ a ∈ intents, WireframeIntent.type a = "list") ∨
      ∃ a ∈ intents, WireframeIntent.type a = "dashboard") <;>
  by_cases h4 : ((∃ a ∈ intents, WireframeIntent.type a = "table") ∨
      ∃ a ∈ intents, WireframeIntent.type a = "dashboard") <;>
  by_cases h5 : (∃ a ∈ intents, WireframeIntent.type a = "form") <;>
  by_cases h6 : (∃ a ∈ intents, WireframeIntent.type a = "button") <;>
  simp [specFromIntents, h1, h2, h3, h4, h5, h6, mkLeafRow, leafIds, leafIdsList,
    navbarComponent, loginFormComponent, signInButtonComponent, tableComponent,
    listComponent, genericFormComponent, submitButtonComponent,
    startsWith_table_id, startsWith_list_id]

/-- C3: the synthesizer is structurally deterministic: two calls whose
intent lists have the same set of types (duplicates, order and values
immaterial) produce the same component list, the same layout tree up to the
opaque container/row/column ids, and the same metadata. -/
theorem c3_structural_determinism (gen gen' : Nat → String)
    (intents intents' : List WireframeIntent)
    (h : ∀ t : String, t ∈ intents.map WireframeIntent.type ↔
      t ∈ intents'.map WireframeIntent.type) :
    (specFromIntents gen intents).components
        = (specFromIntents gen' intents').components ∧
    eraseIds (specFromIntents gen intents).layout
        = eraseIds (specFromIntents gen' intents').layout ∧
    (specFromIntents gen intents).metadata
        = (specFromIntents gen' intents').metadata := by
  have hset : ∀ t : String, (∃ a ∈ intents, WireframeIntent.type a = t) ↔
      ∃ a ∈ intents', WireframeIntent.type a = t := by
    intro t
    simpa [List.mem_map] using h t
  by_cases h1 : ((∃ a ∈ intents, WireframeIntent.type a = "navbar") ∨
      ∃ a ∈ intents, WireframeIntent.type a = "dashboard") <;>
  by_cases h2 : (∃ a ∈ intents, WireframeIntent.type a = "login") <;>
  by_cases h3 : ((∃ a ∈ intents, WireframeIntent.type a = "table") ∨
      (∃ a ∈ intents, WireframeIntent.type a = "list") ∨
      ∃ a ∈ intents, WireframeIntent.type a = "dashboard") <;>
  by_cases h4 : ((∃ a ∈ intents, WireframeIntent.type a = "table") ∨
      ∃ a ∈ intents, WireframeIntent.type a = "dashboard") <;>
  by_cases h5 : (∃ a ∈ intents, WireframeIntent.type a = "form") <;>
  by_cases h6 : (∃ a ∈ intents, WireframeIntent.type a = "button") <;>
  simp [specFromIntents, (hset "navbar").symm, (hset "dashboard").symm, (hset "login").symm,
    (hset "table").symm, (hset "list").symm, (hset "form").symm, (hset "button").symm,
    h1, h2, h3, h4, h5, h6, mkLeafRow, eraseIds, eraseIdsList,
    startsWith_table_id, startsWith_list_id]

/-- C3 (witness): instance with different generators and with duplicate
intents carrying different values on one side. -/
theorem c3_structural_determinism_witness :
    (specFromIntents (fun _ => "aa")
          [⟨"login", none⟩, ⟨"login", some (.str "x")⟩]).components
        = (specFromIntents (fun _ => "bb") [⟨"login", some (.str "y")⟩]).components ∧
    eraseIds (specFromIntents (fun _ => "aa")
          [⟨"login", none⟩, ⟨"login", some (.str "x")⟩]).layout
        = eraseIds (specFromIntents (fun _ => "bb") [⟨"login", some (.str "y")⟩]).layout ∧
    (specFromIntents (fun _ => "aa")
          [⟨"login", none⟩, ⟨"login", some (.str "x")⟩]).metadata
        = (specFromIntents (fun _ => "bb") [⟨"login", some (.str "y")⟩]).metadata :=
  c3_structural_determinism (fun _ => "aa") (fun _ => "bb")
    [⟨"login", none⟩, ⟨"login", some (.str "x")⟩] [⟨"login", some (.str "y")⟩]
    (by intro t; simp)

set_option maxHeartbeats 1600000 in
/-- C4: rule block 3 fires exactly when `table`, `list` or `dashboard` is
recognized; it adds the Table component `table-1` when `table` or
`dashboard` is present and otherwise the List component `list-1`; at most
one of the two is ever added — never both, even when `table` and `list` are
both recognized. -/
theorem c4_table_list_choice (gen : Nat → String) (intents : List WireframeIntent) :
    (("table" ∈ intents.map WireframeIntent.type ∨
        "list" ∈ intents.map WireframeIntent.type ∨
        "dashboard" ∈ intents.map WireframeIntent.type) ↔
      (tableComponent "table-1" ∈ (specFromIntents gen intents).components ∨
        listComponent "list-1" ∈ (specFromIntents gen intents).components)) ∧
    (("table" ∈ intents.map WireframeIntent.type ∨
        "dashboard" ∈ intents.map WireframeIntent.type) →
      tableComponent "table-1" ∈ (specFromIntents gen intents).components ∧
        ∀ c ∈ (specFromIntents gen intents).components, c.id ≠ "list-1") ∧
    (("list" ∈ intents.map WireframeIntent.type ∧
        ¬("table" ∈ intents.map WireframeIntent.type ∨
          "dashboard" ∈ intents.map WireframeIntent.type)) →
      listComponent "list-1" ∈ (specFromIntents gen intents).components ∧
        ∀ c ∈ (specFromIntents gen intents).components, c.id ≠ "table-1") ∧
    ¬((∃ c ∈ (specFromIntents gen intents).components, c.id = "table-1") ∧
      ∃ c ∈ (specFromIntents gen intents).components, c.id = "list-1") := by
  by_cases h1 : (∃ a ∈ intents, WireframeIntent.type a = "navbar") <;>
  by_cases h2 : (∃ a ∈ intents, WireframeIntent.type a = "dashboard") <;>
  by_cases h3 : (∃ a ∈ intents, WireframeIntent.type a = "login") <;>
  by_cases h4 : (∃ a ∈ intents, WireframeIntent.type a = "table") <;>
  by_cases h5 : (∃ a ∈ intents, WireframeIntent.type a = "list") <;>
  by_cases h6 : (∃ a ∈ intents, WireframeIntent.type a = "form") <;>
  by_cases h7 : (∃ a ∈ intents, WireframeIntent.type a = "button") <;>
  simp [specFromIntents, h1, h2, h3, h4, h5, h6, h7, mkLeafRow,
    navbarComponent, loginFormComponent, signInButtonComponent, tableComponent,
    listComponent, genericFormComponent, submitButtonComponent,
    startsWith_table_id, startsWith_list_id]

/-- C4 (witness): instance at the single recognized type `dashboard`: the
Table component `table-1` is added and nothing carries the id `list-1`. -/
theorem c4_table_list_choice_witness :
    tableComponent "table-1" ∈
      (specFromIntents (fun _ => "w") [⟨"dashboard", none⟩]).components :=
  ((c4_table_list_choice (fun _ => "w") [⟨"dashboard", none⟩]).2.1 (by simp)).1

/-- C5: when `login` is recognized, the components include the login Form
`form-1` and the Sign In Button `button-1` and never `form-2` or
`button-2`; when `login` is absent, a recognized `form` adds the generic
Form `form-2` and a recognized `button` adds the Submit Button `button-2`. -/
theorem c5_login_exclusion (gen : Nat → String) (intents : List WireframeIntent) :
    ("login" ∈ intents.map WireframeIntent.type →
      loginFormComponent ∈ (specFromIntents gen intents).components ∧
      signInButtonComponent ∈ (specFromIntents gen intents).components ∧
      (∀ c ∈ (specFromIntents gen intents).components, c.id ≠ "form-2") ∧
      (∀ c ∈ (specFromIntents gen intents).components, c.id ≠ "button-2")) ∧
    ("login" ∉ intents.map WireframeIntent.type →
      ("form" ∈ intents.map WireframeIntent.type →
        genericFormComponent ∈ (specFromIntents gen intents).components) ∧
      ("button" ∈ intents.map WireframeIntent.type →
        submitButtonComponent ∈ (specFromIntents gen intents).components)) := by
  by_cases h1 : ((∃ a ∈ intents, WireframeIntent.type a = "navbar") ∨
      ∃ a ∈ intents, WireframeIntent.type a = "dashboard") <;>
  by_cases h2 : (∃ a ∈ intents, WireframeIntent.type a = "login") <;>
  by_cases h3 : ((∃ a ∈ intents, WireframeIntent.type a = "table") ∨
      (∃ a ∈ intents, WireframeIntent.type a = "list") ∨
      ∃ a ∈ intents, WireframeIntent.type a = "dashboard") <;>
  by_cases h4 : ((∃ a ∈ intents, WireframeIntent.type a = "table") ∨
      ∃ a ∈ intents, WireframeIntent.type a = "dashboard") <;>
  by_cases h5 : (∃ a ∈ intents, WireframeIntent.type a = "form") <;>
  by_cases h6 : (∃ a ∈ intents, WireframeIntent.type a = "button") <;>
  simp [specFromIntents, h1, h2, h3, h4, h5, h6, mkLeafRow,
    navbarComponent, loginFormComponent, signInButtonComponent, tableComponent,
    listComponent, genericFormComponent, submitButtonComponent,
    startsWith_table_id, startsWith_list_id]

/-- C5 (witness): instances at `[login]` (the login form is added) and at
`[form, button]` without `login` (the generic form is added). -/
theorem c5_login_exclusion_witness :
    loginFormComponent ∈ (specFromIntents (fun _ => "w") [⟨"login", none⟩]).components ∧
    genericFormComponent ∈
      (specFromIntents (fun _ => "v") [⟨"form", none⟩, ⟨"button", none⟩]).components :=
  ⟨((c5_login_exclusion (fun _ => "w") [⟨"login", none⟩]).1 (by simp)).1,
    ((c5_login_exclusion (fun _ => "v") [⟨"form", none⟩, ⟨"button", none⟩]).2
      (by simp)).1 (by simp)⟩

/-- C9: when no recognized type triggers any rule (in particular for the
empty intent list, or when every type is `unknown` or otherwise outside the
rule vocabulary), the synthesizer returns the empty canvas: a root container
holding exactly one empty row with one empty full-width (span 12) column,
and an empty component list. -/
theorem c9_empty_canvas (gen : Nat → String) (intents : List WireframeIntent)
    (h : ∀ v ∈ ruleVocab, v ∉ intents.map WireframeIntent.type) :
    specFromIntents gen intents =
      { id := "wf-" ++ gen 0,
        layout := .container ("wf-" ++ gen 0) "column"
          [.row ("row-" ++ gen 1) [.column ("col-" ++ gen 2) 12 []]],
        components := [],
        metadata := [("generator", "rule-based"), ("version", "1.0.0")] } := by
  have hn : ¬ ∃ a ∈ intents, WireframeIntent.type a = "navbar" := by
    simpa [List.mem_map] using h "navbar" (by decide)
  have hd : ¬ ∃ a ∈ intents, WireframeIntent.type a = "dashboard" := by
    simpa [List.mem_map] using h "dashboard" (by decide)
  have hl : ¬ ∃ a ∈ intents, WireframeIntent.type a = "login" := by
    simpa [List.mem_map] using h "login" (by decide)
  have ht : ¬ ∃ a ∈ intents, WireframeIntent.type a = "table" := by
    simpa [List.mem_map] using h "table" (by decide)
  have hli : ¬ ∃ a ∈ intents, WireframeIntent.type a = "list" := by
    simpa [List.mem_map] using h "list" (by decide)
  have hf : ¬ ∃ a ∈ intents, WireframeIntent.type a = "form" := by
    simpa [List.mem_map] using h "form" (by decide)
  have hb : ¬ ∃ a ∈ intents, WireframeIntent.type a = "button" := by
    simpa [List.mem_map] using h "button" (by decide)
  simp [specFromIntents, mkLeafRow, hn, hd, hl, ht, hli, hf, hb]

/-- C9 (witness): instance at the single unrecognized type `unknown` with a
constant id generator. -/
theorem c9_empty_canvas_witness :
    specFromIntents (fun _ => "z") [⟨"unknown", none⟩] =
      { id := "wf-" ++ (fun _ : Nat => "z") 0,
        layout := .container ("wf-" ++ (fun _ : Nat => "z") 0) "column"
          [.row ("row-" ++ (fun _ : Nat => "z") 1)
            [.column ("col-" ++ (fun _ : Nat => "z") 2) 12 []]],
        components := [],
        metadata := [("generator", "rule-based"), ("version", "1.0.0")] } :=
  c9_empty_canvas (fun _ => "z") [⟨"unknown", none⟩] (by decide)

/-- C10: intents whose type lies outside the seven-keyword rule vocabulary
are silently ignored: filtering them away changes nothing — the synthesizer
output (layout, components, metadata, ids included, for the same injected
generator) is identical to that of the vocabulary-typed sublist. -/
theorem c10_nonvocab_ignored (gen : Nat → String) (intents : List WireframeIntent) :
    specFromIntents gen (intents.filter fun i => decide (i.type ∈ ruleVocab)) =
      specFromIntents gen intents := by
  have key : ∀ t : String, t ∈ ruleVocab →
      ((t ∈ (intents.filter fun i => decide (i.type ∈ ruleVocab)).map WireframeIntent.type) ↔
        t ∈ intents.map WireframeIntent.type) := by
    intro t ht
    simp only [List.mem_map]
    constructor
    · rintro ⟨a, ha, rfl⟩
      exact ⟨a, (List.mem_filter.mp ha).1, rfl⟩
    · rintro ⟨a, ha, rfl⟩
      exact ⟨a, List.mem_filter.mpr ⟨ha, by simpa using ht⟩, rfl⟩
  simp only [specFromIntents, key "navbar" (by decide), key "dashboard" (by decide),
    key "login" (by decide), key "table" (by decide), key "list" (by decide),
    key "form" (by decide), key "button" (by decide)]

end AIAgent
